import Mathlib

/-!
Verification of the transform interaction in
src/src/interaction/InteractionTransform.js (class OlInteractionTransform).

The interaction owns a selection, a handle overlay, and a pointer-gesture
state machine (rotate / translate / scale).  Coordinates are modelled as
rationals; the external collaborators listed by the code (the map's
pixel-coordinate conversion, atan2, and the geometry rotate primitive) are
passed in as an explicit record of operations.  JavaScript crashes
(dereferencing a null selection, indexing an array at NaN) are modelled by
an Option result: none means the handler throws.
-/

namespace OlTransform

/-- A 2D coordinate, as the [x, y] pairs used throughout the source. -/
structure Coord where
  x : ℚ
  y : ℚ
deriving DecidableEq

instance : Inhabited Coord := ⟨⟨0, 0⟩⟩

/-- An axis-aligned extent [minX, minY, maxX, maxY], as ol/extent. -/
structure Extent where
  minX : ℚ
  minY : ℚ
  maxX : ℚ
  maxY : ℚ
deriving DecidableEq

/-- A geometry: its type string (as returned by getType()) and its flat
coordinate list.  Mirrors the surface of ol geometries the source uses. -/
structure Geometry where
  typ : String
  coords : List Coord
deriving DecidableEq

/-- The geometry of an overlay sketch feature: a point handle or the
bounding-box polygon ring. -/
inductive SketchGeom where
  | pt (c : Coord)
  | poly (ring : List Coord)
deriving DecidableEq

/-- An overlay feature, as built by drawSketch_: a geometry plus the
optional handle / constraint / option properties. -/
structure SketchFeature where
  geom : SketchGeom
  handle : Option String := none
  constraint : Option String := none
  option : Option Nat := none
deriving DecidableEq

/-- An event dispatched by dispatchEvent: the type string plus the payload
fields the source may attach.  A field that a dispatch site does not set is
none (the property is absent from the event object).  The feature field is
set at every dispatch site, so it directly holds the (possibly null)
feature reference, as an index into the external shape store. -/
structure DispatchedEvent where
  type : String
  feature : Option Nat := none
  angle : Option ℚ := none
  delta : Option (ℚ × ℚ) := none
  scale : Option (ℚ × ℚ) := none
  oldgeom : Option Geometry := none
  pixel : Option Coord := none
  coordinate : Option Coord := none
deriving DecidableEq

/-- The slice of an ol.MapBrowserEvent that the handlers read. -/
structure MapBrowserEvent where
  coordinate : Coord
  pixel : Coord
  shiftKey : Bool := false
  metaKey : Bool := false
  ctrlKey : Bool := false
deriving DecidableEq

/-- The result of getFeatureAtPixel_: an optional feature reference plus
the handle / constraint / option tags when a handle was hit. -/
structure HitResult where
  feature : Option Nat := none
  handle : Option String := none
  constraint : Option String := none
  option : Option Nat := none
deriving DecidableEq

/-- The external collaborators the source delegates to: Math.atan2, the
geometry rotate(angle, anchor) primitive, and the pixel-space ring that
drawSketch_ computes around a point geometry via the map's
pixel-coordinate conversion. -/
structure ExternalOps where
  atan2 : ℚ → ℚ → ℚ
  rotateCoords : ℚ → Coord → List Coord → List Coord
  ptRing : Coord → List Coord

/-- The mutable fields of the interaction object.  Features live in an
external store (shapes); feature_ is a reference into it, mirroring the
non-owning reference the interaction holds.  The five boolean properties
are the config flags set in the constructor; keepAspectFn is the function
stored under the keepAspectRatio property (always a function: the
constructor substitutes a default when the option is missing). -/
structure TransformState where
  shapes : List Geometry
  feature_ : Option Nat := none
  ispt_ : Bool := false
  mode_ : Option String := none
  opt_ : Option Nat := none
  constraint_ : Option String := none
  coordinate_ : Coord := default
  pixel_ : Coord := default
  geom_ : Geometry := ⟨"", []⟩
  extent_ : List Coord := []
  center_ : Coord := default
  angle_ : ℚ := 0
  overlayVisible : Bool := true
  handles_ : List SketchFeature := []
  active : Bool := true
  translateFeature : Bool := true
  translate : Bool := true
  stretch : Bool := true
  scale : Bool := true
  rotate : Bool := true
  keepAspectFn : MapBrowserEvent → Bool := fun e => e.shiftKey

/-- geometry.translate(dx, dy) on a flat coordinate list. -/
def translateCoords (dx dy : ℚ) (g : List Coord) : List Coord :=
  g.map fun c => ⟨c.x + dx, c.y + dy⟩

/-- geometry.translate(dx, dy) on a geometry. -/
def Geometry.translateBy (g : Geometry) (dx dy : ℚ) : Geometry :=
  ⟨g.typ, translateCoords dx dy g.coords⟩

/-- Translation of an overlay feature's geometry, as done to every handle
marker during a translate drag. -/
def SketchFeature.translateBy (f : SketchFeature) (dx dy : ℚ) : SketchFeature :=
  { f with geom :=
      match f.geom with
      | .pt c => .pt ⟨c.x + dx, c.y + dy⟩
      | .poly ring => .poly (translateCoords dx dy ring) }

/-- geometry.getExtent(): the bounding extent of a coordinate list.  The
source only takes extents of non-empty geometries; the empty case returns
a degenerate zero extent. -/
def getExtent : List Coord → Extent
  | [] => ⟨0, 0, 0, 0⟩
  | c :: rest =>
    rest.foldl (fun e c' =>
        ⟨min e.minX c'.x, min e.minY c'.y, max e.maxX c'.x, max e.maxY c'.y⟩)
      ⟨c.x, c.y, c.x, c.y⟩

/-- ol.extent.getCenter. -/
def getCenter (e : Extent) : Coord :=
  ⟨(e.minX + e.maxX) / 2, (e.minY + e.maxY) / 2⟩

/-- The linear ring of ol/geom/polygon.fromExtent:
[minX,minY], [minX,maxY], [maxX,maxY], [maxX,minY], [minX,minY]. -/
def fromExtentRing (e : Extent) : List Coord :=
  [⟨e.minX, e.minY⟩, ⟨e.minX, e.maxY⟩, ⟨e.maxX, e.maxY⟩, ⟨e.maxX, e.minY⟩,
   ⟨e.minX, e.minY⟩]

/-- One point of the applyTransform callback in the scale case: each axis
offset from the pivot is multiplied by its factor, and an axis whose
factor is exactly 1 is skipped (the output keeps the input value). -/
def scalePoint (center : Coord) (scx scy : ℚ) (c : Coord) : Coord :=
  ⟨if scx ≠ 1 then center.x + (c.x - center.x) * scx else c.x,
   if scy ≠ 1 then center.y + (c.y - center.y) * scy else c.y⟩

/-- geometry.applyTransform with the scale callback, over all coordinates. -/
def scaleCoords (center : Coord) (scx scy : ℚ) (g : List Coord) : List Coord :=
  g.map (scalePoint center scx scy)

/-- The source's aspect test reads the keepAspectRatio property into a
local and evaluates the disjunction of the local itself and its
application to the event.  The property always holds a function object,
and a function object is truthy in JavaScript, so the first disjunct is
always true and the predicate is never applied. -/
def keepAspectCheck (f : MapBrowserEvent → Bool) (evt : MapBrowserEvent) : Bool :=
  true || f evt

/-- drawSketch_(center): clears the overlay source and, when a feature is
selected, rebuilds the handle features.  center = true requests the
center-only redraw used while rotating.  For a point geometry the ring is
computed from a fixed pixel box around the point via the map (external),
here ops.ptRing. -/
def drawSketch_ (ops : ExternalOps) (st : TransformState) (center : Bool) :
    List SketchFeature :=
  match st.feature_ with
  | none => []
  | some fi =>
    let fgeom := st.shapes.getD fi ⟨"", []⟩
    if center then
      if !st.ispt_ then
        [⟨.pt st.center_, some "rotate0", none, none⟩,
         ⟨.poly (fromExtentRing (getExtent fgeom.coords)), none, none, none⟩]
      else []
    else
      let ext := getExtent fgeom.coords
      let g : List Coord :=
        if st.ispt_ then ops.ptRing ⟨ext.minX, ext.minY⟩
        else fromExtentRing ext
      let base : List SketchFeature :=
        if !st.ispt_ then
          [⟨.poly g, none, none, none⟩]
          ++ (if st.stretch && st.scale then
                (List.range (g.length - 1)).map fun i =>
                  ⟨.pt ⟨((g.getD i default).x + (g.getD (i + 1) default).x) / 2,
                        ((g.getD i default).y + (g.getD (i + 1) default).y) / 2⟩,
                   some "scale",
                   some (if i % 2 = 1 then "h" else "v"),
                   some i⟩
              else [])
          ++ (if st.scale then
                (List.range (g.length - 1)).map fun j =>
                  ⟨.pt (g.getD j default), some "scale", none, some j⟩
              else [])
          ++ (if st.translate && !st.translateFeature then
                [⟨.pt ⟨((g.getD 0 default).x + (g.getD 2 default).x) / 2,
                       ((g.getD 0 default).y + (g.getD 2 default).y) / 2⟩,
                  some "translate", none, none⟩]
              else [])
        else []
      let rot : List SketchFeature :=
        if st.rotate then [⟨.pt (g.getD 3 default), some "rotate", none, none⟩]
        else []
      base ++ rot

/-- select(feature): stores the (possibly null) selection, recomputes the
is-a-point flag, rebuilds the sketch, and dispatches a select event whose
payload is only the feature. -/
def select (ops : ExternalOps) (st : TransformState) (f : Option Nat) :
    TransformState × List DispatchedEvent :=
  let st1 := { st with
    feature_ := f,
    ispt_ := match f with
      | some fi => (st.shapes.getD fi ⟨"", []⟩).typ == "Point"
      | none => false }
  let st2 := { st1 with handles_ := drawSketch_ ops st1 false }
  (st2, [{ type := "select", feature := f }])

/-- setActive(b): calls select(null), then sets the overlay layer's
visibility to b and the interaction's active flag to b. -/
def setActive (ops : ExternalOps) (st : TransformState) (b : Bool) :
    TransformState × List DispatchedEvent :=
  let r := select ops st none
  ({ r.1 with overlayVisible := b, active := b }, r.2)

/-- handleDownEvent_: classifies the hit (passed in from the external
feature-at-pixel query), optionally synthesizes a translate handle for a
click on the already-selected feature, and either captures the gesture
snapshot and starts a drag (result flag true) or updates the selection
(result flag false).  Capturing the snapshot dereferences this.feature_,
so a handle hit with a null selection throws: result none. -/
def handleDownEvent_ (ops : ExternalOps) (st : TransformState)
    (evt : MapBrowserEvent) (sel : HitResult) :
    Option (TransformState × List DispatchedEvent × Bool) :=
  let sel :=
    if st.feature_.isSome && st.feature_ == sel.feature &&
        ((st.ispt_ && st.translate) || st.translateFeature) then
      { sel with handle := some "translate" }
    else sel
  match sel.handle with
  | some h =>
    match st.feature_ with
    | none => none
    | some fi =>
      let geomClone := st.shapes.getD fi ⟨"", []⟩
      let ext := getExtent geomClone.coords
      let ctr := getCenter ext
      let st1 := { st with
        mode_ := some h,
        opt_ := sel.option,
        constraint_ := sel.constraint,
        coordinate_ := evt.coordinate,
        pixel_ := evt.pixel,
        geom_ := geomClone,
        extent_ := fromExtentRing ext,
        center_ := ctr,
        angle_ := ops.atan2 (ctr.y - evt.coordinate.y) (ctr.x - evt.coordinate.x) }
      some (st1,
        [{ type := h ++ "start", feature := st.feature_,
           pixel := some evt.pixel, coordinate := some evt.coordinate }],
        true)
  | none =>
    let st1 := { st with
      feature_ := sel.feature,
      ispt_ := match sel.feature with
        | some fi => (st.shapes.getD fi ⟨"", []⟩).typ == "Point"
        | none => false }
    let st2 := { st1 with handles_ := drawSketch_ ops st1 false }
    some (st2,
      [{ type := "select", feature := sel.feature,
         pixel := some evt.pixel, coordinate := some evt.coordinate }],
      false)

/-- The tail of the scale case of handleDragEvent_, from the point where
the pivot (the variable named center in the source) has been read: the
per-axis ratios, the constraint and aspect overrides, the applyTransform
of the snapshot clone, the setGeometry (throwing on a null selection),
the full sketch redraw and the scaling event. -/
def scaleStep (ops : ExternalOps) (st : TransformState) (evt : MapBrowserEvent)
    (center : Coord) : Option (TransformState × List DispatchedEvent) :=
  let scx0 := (evt.coordinate.x - center.x) / (st.coordinate_.x - center.x)
  let scy0 := (evt.coordinate.y - center.y) / (st.coordinate_.y - center.y)
  let sc : ℚ × ℚ :=
    if st.constraint_.isSome then
      if st.constraint_ = some "h" then (1, scy0) else (scx0, 1)
    else
      if keepAspectCheck st.keepAspectFn evt then
        (min scx0 scy0, min scx0 scy0)
      else (scx0, scy0)
  match st.feature_ with
  | none => none
  | some fi =>
    let geometry : Geometry :=
      ⟨st.geom_.typ, scaleCoords center sc.1 sc.2 st.geom_.coords⟩
    let st1 := { st with shapes := st.shapes.set fi geometry }
    let st2 := { st1 with handles_ := drawSketch_ ops st1 false }
    some (st2,
      [{ type := "scaling", feature := st.feature_, scale := some sc,
         pixel := some evt.pixel, coordinate := some evt.coordinate }])

/-- handleDragEvent_: dispatches on the active mode.  Each mutating branch
dereferences this.feature_ (setGeometry in the rotate and scale cases,
getGeometry().translate in the translate case), so a null selection
throws: result none.  In the scale case, holding the modifier key reads
this.extent_ at (Number(this.opt_) + 2) % 4; with this.opt_ undefined the
index is NaN, the corner is undefined and reading center[0] throws. -/
def handleDragEvent_ (ops : ExternalOps) (st : TransformState)
    (evt : MapBrowserEvent) : Option (TransformState × List DispatchedEvent) :=
  if st.mode_ = some "rotate" then
    let a := ops.atan2 (st.center_.y - evt.coordinate.y)
      (st.center_.x - evt.coordinate.x)
    -- The source guards the mutation with !this.ispt, a typo for
    -- this.ispt_: this.ispt is always undefined, hence falsy, so the
    -- branch is always taken.
    let geometry : Geometry :=
      ⟨st.geom_.typ, ops.rotateCoords (a - st.angle_) st.center_ st.geom_.coords⟩
    match st.feature_ with
    | none => none
    | some fi =>
      let st1 := { st with shapes := st.shapes.set fi geometry }
      let st2 := { st1 with handles_ := drawSketch_ ops st1 true }
      some (st2,
        [{ type := "rotating", feature := st.feature_, angle := some (a - st.angle_),
           pixel := some evt.pixel, coordinate := some evt.coordinate }])
  else if st.mode_ = some "translate" then
    let deltaX := evt.coordinate.x - st.coordinate_.x
    let deltaY := evt.coordinate.y - st.coordinate_.y
    match st.feature_ with
    | none => none
    | some fi =>
      let st1 := { st with
        shapes := st.shapes.set fi
          ((st.shapes.getD fi ⟨"", []⟩).translateBy deltaX deltaY),
        handles_ := st.handles_.map (fun f => f.translateBy deltaX deltaY),
        coordinate_ := evt.coordinate }
      some (st1,
        [{ type := "translating", feature := st.feature_,
           delta := some (deltaX, deltaY),
           pixel := some evt.pixel, coordinate := some evt.coordinate }])
  else if st.mode_ = some "scale" then
    if evt.metaKey || evt.ctrlKey then
      match st.opt_ with
      | none => none
      | some o => scaleStep ops st evt (st.extent_.getD ((o + 2) % 4) default)
    else
      scaleStep ops st evt st.center_
  else
    some (st, [])

/-- handleUpEvent_: dispatches the end event for the active mode, carrying
the feature and the pre-gesture snapshot geometry, rebuilds the sketch,
and clears the mode. -/
def handleUpEvent_ (ops : ExternalOps) (st : TransformState) :
    TransformState × List DispatchedEvent × Bool :=
  let ev : DispatchedEvent :=
    { type := st.mode_.getD "null" ++ "end", feature := st.feature_,
      oldgeom := some st.geom_ }
  let st1 := { st with handles_ := drawSketch_ ops st false, mode_ := none }
  (st1, [ev], false)

/-- The scale pivot used for one drag event: the snapshot center, or, when
the modifier key (meta or ctrl) is held on that drag event, the snapshot
extent corner diagonally opposite the grabbed corner k.  This definition
follows the amended wording of the pivot rule, for comparison against the
handler. -/
def scalePivot (st : TransformState) (evt : MapBrowserEvent) (k : Nat) : Coord :=
  if evt.metaKey || evt.ctrlKey then st.extent_.getD ((k + 2) % 4) default
  else st.center_

/-- The pair of scale factors for one drag event about a given pivot: the
raw per-axis ratios of (current pointer minus pivot) to (gesture-start
pointer minus pivot), overridden to 1 on one axis by a constraint, or
forced equal by the aspect test.  This definition follows the spec's
description of the factor computation, for comparison against the handler. -/
def scaleFactors (st : TransformState) (evt : MapBrowserEvent) (pivot : Coord) :
    ℚ × ℚ :=
  let scx0 := (evt.coordinate.x - pivot.x) / (st.coordinate_.x - pivot.x)
  let scy0 := (evt.coordinate.y - pivot.y) / (st.coordinate_.y - pivot.y)
  if st.constraint_.isSome then
    if st.constraint_ = some "h" then (1, scy0) else (scx0, 1)
  else
    if keepAspectCheck st.keepAspectFn evt then (min scx0 scy0, min scx0 scy0)
    else (scx0, scy0)

/-- The geometry produced by one scale drag event, following the amended
pivot rule: the snapshot geometry scaled about scalePivot by scaleFactors. -/
def scaledGeometry (st : TransformState) (evt : MapBrowserEvent) (k : Nat) : Geometry :=
  ⟨st.geom_.typ,
   scaleCoords (scalePivot st evt k) (scaleFactors st evt (scalePivot st evt k)).1
     (scaleFactors st evt (scalePivot st evt k)).2 st.geom_.coords⟩

/-- The state after one scale drag event, as described by the spec: the
selected shape replaced by scaledGeometry and the sketch fully redrawn. -/
def scaledState (ops : ExternalOps) (st : TransformState) (evt : MapBrowserEvent)
    (k fi : Nat) : TransformState :=
  let st1 := { st with shapes := st.shapes.set fi (scaledGeometry st evt k) }
  { st1 with handles_ := drawSketch_ ops st1 false }

/-- The state after one translate drag event: the live geometry of the
selected shape and every handle marker shifted by the delta from the
previous pointer position, which is then updated. -/
def translatedState (st : TransformState) (evt : MapBrowserEvent) (fi : Nat) :
    TransformState :=
  { st with
    shapes := st.shapes.set fi ((st.shapes.getD fi ⟨"", []⟩).translateBy
      (evt.coordinate.x - st.coordinate_.x) (evt.coordinate.y - st.coordinate_.y))
    handles_ := st.handles_.map fun f => f.translateBy
      (evt.coordinate.x - st.coordinate_.x) (evt.coordinate.y - st.coordinate_.y)
    coordinate_ := evt.coordinate }

/-- A square polygon with corners (0,0), (10,0), (10,10), (0,10). -/
def squareGeom : Geometry := ⟨"Polygon", [⟨0, 0⟩, ⟨10, 0⟩, ⟨10, 10⟩, ⟨0, 10⟩]⟩

/-- Concrete external operations for the concrete runs: a zero atan2, the
identity rotation primitive, and a degenerate pixel ring. -/
def opsW : ExternalOps := ⟨fun _ _ => 0, fun _ _ g => g, fun c => [c, c, c, c, c]⟩

/-- A state with the square selected and no gesture in progress. -/
def squareState : TransformState := { shapes := [squareGeom], feature_ := some 0 }

/-- A point feature at (3,4). -/
def ptGeom : Geometry := ⟨"Point", [⟨3, 4⟩]⟩

/-- A state with the point feature selected. -/
def ptState : TransformState :=
  { shapes := [ptGeom], feature_ := some 0, ispt_ := true }

/-- A state whose selection has been cleared while a translate gesture is
still marked active, as after select(null) during a drag. -/
def nullSelState : TransformState :=
  { shapes := [squareGeom], feature_ := none, mode_ := some "translate",
    geom_ := squareGeom }

/-- A constrained scale gesture in progress on the square: grabbed
top-edge midpoint handle (constraint h, index 1), snapshot center (5,5),
gesture start pointer at the handle (5,10). -/
def scaleHState : TransformState :=
  { squareState with
    mode_ := some "scale"
    opt_ := some 1
    constraint_ := some "h"
    coordinate_ := ⟨5, 10⟩
    pixel_ := ⟨5, 10⟩
    geom_ := squareGeom
    extent_ := fromExtentRing ⟨0, 0, 10, 10⟩
    center_ := ⟨5, 5⟩ }

/-- An unconstrained corner-scale gesture in progress on the square:
grabbed corner handle 2 at (10,10), snapshot center (5,5). -/
def scaleState : TransformState :=
  { scaleHState with
    opt_ := some 2
    constraint_ := none
    coordinate_ := ⟨10, 10⟩
    pixel_ := ⟨10, 10⟩ }

/-- A translate gesture in progress on the square, previous pointer
position (3,3). -/
def translateState : TransformState :=
  { squareState with
    mode_ := some "translate"
    coordinate_ := ⟨3, 3⟩
    geom_ := squareGeom }

/-- A drag event moving the pointer to (7,8). -/
def evtOut : MapBrowserEvent := { coordinate := ⟨7, 8⟩, pixel := ⟨7, 8⟩ }

/-- A drag event moving the pointer back to the gesture start (3,3). -/
def evtBack : MapBrowserEvent := { coordinate := ⟨3, 3⟩, pixel := ⟨3, 3⟩ }

/-- A drag-ready state used to exercise handleUpEvent_. -/
def upState : TransformState :=
  { squareState with mode_ := some "translate", geom_ := squareGeom }

section Helpers

variable {α : Type}

theorem getD_set_of_lt (l : List α) (i : Nat) (a d : α) (h : i < l.length) :
    (l.set i a).getD i d = a := by
  induction l generalizing i with
  | nil => simp at h
  | cons b t ih =>
    cases i with
    | zero => rfl
    | succ n =>
      simp only [List.set, List.getD, List.getElem?_cons_succ]
      have := ih n (by simpa using h)
      simpa [List.getD] using this

theorem set_getD_self (l : List α) (i : Nat) (d : α) (h : i < l.length) :
    l.set i (l.getD i d) = l := by
  induction l generalizing i with
  | nil => rfl
  | cons b t ih =>
    cases i with
    | zero => rfl
    | succ n =>
      simp only [List.getD, List.getElem?_cons_succ, List.set]
      have := ih n (by simpa using h)
      simpa [List.getD] using this

theorem translateCoords_cancel (a b c d : ℚ) (g : List Coord)
    (hx : a + c = 0) (hy : b + d = 0) :
    translateCoords c d (translateCoords a b g) = g := by
  simp only [translateCoords, List.map_map]
  have h : ∀ p : Coord,
      ((fun q : Coord => (⟨q.x + c, q.y + d⟩ : Coord)) ∘
        (fun q : Coord => (⟨q.x + a, q.y + b⟩ : Coord))) p = p := by
    intro p
    have hx' : p.x + a + c = p.x := by linarith
    have hy' : p.y + b + d = p.y := by linarith
    simp [Function.comp, hx', hy']
  calc g.map _ = g.map id := List.map_congr_left fun p _ => h p
    _ = g := List.map_id g

theorem scaleCoords_one_x (center : Coord) (scy : ℚ) (g : List Coord) :
    (scaleCoords center 1 scy g).map Coord.x = g.map Coord.x := by
  simp [scaleCoords, scalePoint, Function.comp_def]

end Helpers

/-- C9: setActive(false) clears the current selection to null, hides the
handle overlay (the overlay is made invisible and its source is cleared),
and leaves every externally stored shape geometry unchanged. -/
theorem C9_setActive_false_clears (ops : ExternalOps) (st : TransformState) :
    (setActive ops st false).1.feature_ = none ∧
    (setActive ops st false).1.overlayVisible = false ∧
    (setActive ops st false).1.handles_ = [] ∧
    (setActive ops st false).1.shapes = st.shapes :=
  ⟨rfl, rfl, rfl, rfl⟩

/-- C10: for every boolean b, setActive(b) clears the selection to null,
dispatches a single select event whose feature is null, empties the
overlay source, and sets both the overlay visibility and the active flag
to b; in particular activation with b = true also wipes any existing
selection. -/
theorem C10_setActive_wipes (ops : ExternalOps) (st : TransformState) (b : Bool) :
    (setActive ops st b).1.feature_ = none ∧
    (setActive ops st b).2 = [{ type := "select", feature := none }] ∧
    (setActive ops st b).1.handles_ = [] ∧
    (setActive ops st b).1.overlayVisible = b ∧
    (setActive ops st b).1.active = b :=
  ⟨rfl, rfl, rfl, rfl, rfl⟩

/-- C6: the drag handler is not guarded against a null current selection:
in each of the three modes it dereferences the null selection and throws
(modelled as a none result) instead of performing a no-op. -/
theorem C6_null_selection_crashes :
    (handleDragEvent_ opsW nullSelState
      { coordinate := ⟨1, 1⟩, pixel := ⟨1, 1⟩ }).isSome = false ∧
    (handleDragEvent_ opsW { nullSelState with mode_ := some "rotate" }
      { coordinate := ⟨1, 1⟩, pixel := ⟨1, 1⟩ }).isSome = false ∧
    (handleDragEvent_ opsW { nullSelState with mode_ := some "scale" }
      { coordinate := ⟨1, 1⟩, pixel := ⟨1, 1⟩ }).isSome = false :=
  ⟨rfl, rfl, rfl⟩

/-- C7: on the square with corners (0,0),(10,0),(10,10),(0,10), grabbing
the corner-scale handle at (10,10) (corner index 2, no constraint), with
the pivot at the center (5,5), and dragging so the raw ratio is 2 on both
axes, maps corner (10,10) to (15,15) and corner (0,0) to (-5,-5). -/
theorem C7_square_corner_scale :
    ((handleDownEvent_ opsW squareState
        { coordinate := ⟨10, 10⟩, pixel := ⟨10, 10⟩ }
        ⟨none, some "scale", none, some 2⟩).bind fun r =>
      (handleDragEvent_ opsW r.1
        { coordinate := ⟨15, 15⟩, pixel := ⟨15, 15⟩ }).map fun r2 =>
        r2.1.shapes)
      = some [⟨"Polygon", [⟨-5, -5⟩, ⟨15, -5⟩, ⟨15, 15⟩, ⟨-5, 15⟩]⟩] := by
  simp [handleDownEvent_, handleDragEvent_, scaleStep, squareState, squareGeom, opsW,
    keepAspectCheck, scaleCoords, scalePoint, getExtent, getCenter,
    fromExtentRing]
  norm_num

/-- C1: the aspect-ratio predicate is never consulted.  On a corner-scale
drag of the square with raw ratios 2 and 3 and the predicate returning
false on the drag event (shift not held, default predicate), the handler
still forces both factors to min(2,3) = 2 and emits scale = (2,2), where
the documented contract requires the independent factors (2,3). -/
theorem C1_aspect_predicate_ignored :
    squareState.keepAspectFn { coordinate := ⟨15, 20⟩, pixel := ⟨15, 20⟩ } = false ∧
    ((handleDownEvent_ opsW squareState
        { coordinate := ⟨10, 10⟩, pixel := ⟨10, 10⟩ }
        ⟨none, some "scale", none, some 2⟩).bind fun r =>
      (handleDragEvent_ opsW r.1
        { coordinate := ⟨15, 20⟩, pixel := ⟨15, 20⟩ }).map fun r2 =>
        r2.2.map fun e => e.scale)
      = some [some (2, 2)] ∧
    (some (2, 2) : Option (ℚ × ℚ)) ≠ some (2, 3) := by
  refine ⟨rfl, ?_, by norm_num⟩
  simp [handleDownEvent_, handleDragEvent_, scaleStep, squareState, squareGeom, opsW,
    keepAspectCheck, getExtent, getCenter, fromExtentRing]
  norm_num

/-- C2 counterexample: on the square, a scale drag with the constraint
axis of the grabbed handle set to h (top-edge midpoint handle, gesture
start (5,10), drag to (5,15)) changes the Y-coordinates of the geometry
from [0,0,10,10] to [-5,-5,15,15]: a constraint axis of h does not leave
the Y-coordinates unchanged (it is the X axis that is frozen). -/
theorem C2_constraint_h_changes_y :
    ((handleDownEvent_ opsW squareState
        { coordinate := ⟨5, 10⟩, pixel := ⟨5, 10⟩ }
        ⟨none, some "scale", some "h", some 1⟩).bind fun r =>
      (handleDragEvent_ opsW r.1
        { coordinate := ⟨5, 15⟩, pixel := ⟨5, 15⟩ }).map fun r2 =>
        (r2.1.shapes.getD 0 ⟨"", []⟩).coords.map Coord.y)
      = some [-5, -5, 15, 15] ∧
    squareGeom.coords.map Coord.y = [0, 0, 10, 10] ∧
    ([-5, -5, 15, 15] : List ℚ) ≠ [0, 0, 10, 10] := by
  refine ⟨?_, rfl, by norm_num⟩
  simp [handleDownEvent_, handleDragEvent_, scaleStep, squareState, squareGeom, opsW,
    keepAspectCheck, scaleCoords, scalePoint, getExtent, getCenter,
    fromExtentRing]
  norm_num

/-- C3 counterexample: the modifier key held at drag start does not select
the diagonal-corner pivot; only the modifier state of each drag event
does.  Pointer-down on corner 2 of the square with the meta key held,
then a drag to (20,20) with the modifier released, scales about the
center (5,5) and yields corner coordinates starting at (-10,-10), whereas
scaling about the diagonally opposite corner (0,0), as the claim requires
for a modifier held at drag start, would leave (0,0) fixed. -/
theorem C3_pivot_not_latched_at_down :
    ((handleDownEvent_ opsW squareState
        { coordinate := ⟨10, 10⟩, pixel := ⟨10, 10⟩, metaKey := true }
        ⟨none, some "scale", none, some 2⟩).bind fun r =>
      (handleDragEvent_ opsW r.1
        { coordinate := ⟨20, 20⟩, pixel := ⟨20, 20⟩ }).map fun r2 =>
        r2.1.shapes)
      = some [⟨"Polygon", [⟨-10, -10⟩, ⟨20, -10⟩, ⟨20, 20⟩, ⟨-10, 20⟩]⟩] ∧
    scaleCoords ⟨0, 0⟩ 2 2 squareGeom.coords
      = [⟨0, 0⟩, ⟨20, 0⟩, ⟨20, 20⟩, ⟨0, 20⟩] ∧
    (⟨-10, -10⟩ : Coord) ≠ ⟨0, 0⟩ := by
  refine ⟨?_, ?_, by simp [Coord.mk.injEq]⟩
  · simp [handleDownEvent_, handleDragEvent_, scaleStep, squareState, squareGeom, opsW,
      keepAspectCheck, scaleCoords, scalePoint, getExtent, getCenter,
      fromExtentRing]
    norm_num
  · simp [scaleCoords, scalePoint, squareGeom]
    norm_num

/-- C4 counterexample: the end event dispatched on pointer-up carries only
the feature and the pre-gesture geometry; it has no pixel and no
coordinate field, contradicting the claimed minimum payload. -/
theorem C4_end_event_lacks_pixel :
    (handleUpEvent_ opsW upState).2.1.map
        (fun e => (e.type, e.pixel, e.coordinate, e.oldgeom))
      = [("translateend", none, none, some squareGeom)] :=
  rfl

/-- C5 counterexample: for a selected point geometry, a center-only redraw
produces an empty overlay, not a single rotate-origin marker: the rotate0
marker is only emitted for non-point geometries. -/
theorem C5_point_center_redraw_empty :
    drawSketch_ opsW ptState true = [] ∧
    (drawSketch_ opsW ptState true).length ≠ 1 :=
  ⟨rfl, by decide⟩




/-- Characterization of the scale case of the drag handler: with a scale
mode, a grabbed corner index and a selection, the result is scaledState
plus a single scaling event carrying the factors and the event's pixel
and coordinate. -/
theorem handleDrag_scale_spec (ops : ExternalOps) (st : TransformState)
    (evt : MapBrowserEvent) (k fi : Nat)
    (hm : st.mode_ = some "scale") (hk : st.opt_ = some k)
    (hf : st.feature_ = some fi) :
    handleDragEvent_ ops st evt =
      some (scaledState ops st evt k fi,
        [{ type := "scaling", feature := some fi,
           scale := some (scaleFactors st evt (scalePivot st evt k)),
           pixel := some evt.pixel, coordinate := some evt.coordinate }]) := by
  unfold handleDragEvent_ scaleStep scaledState scaledGeometry scalePivot scaleFactors
  rw [hm, hk, hf]
  rw [if_neg (by simp), if_neg (by simp), if_pos rfl]
  by_cases hmod : (evt.metaKey || evt.ctrlKey) = true
  · simp [hmod]
  · simp only [Bool.not_eq_true] at hmod
    simp [hmod]


/-- The pivot is a fixed point of the scale transform. -/
theorem scalePoint_pivot_fixed (p : Coord) (sx sy : ℚ) : scalePoint p sx sy p = p := by
  simp [scalePoint]

/-- C3 (amended): in scale mode the transformed geometry is the snapshot
geometry scaled about the pivot selected by the modifier state of the
current drag event — the snapshot center, or, when the modifier key is
held on that event, the snapshot extent corner at (cornerIndex + 2) mod 4,
diagonally opposite the grabbed corner — and that pivot is a fixed point
of the transform.  The modifier is re-read on every drag event rather than
latched at drag start. -/
theorem C3_pivot_follows_drag_modifier (ops : ExternalOps) (st : TransformState)
    (evt : MapBrowserEvent) (k fi : Nat)
    (st' : TransformState) (evs : List DispatchedEvent)
    (hm : st.mode_ = some "scale") (hk : st.opt_ = some k)
    (hf : st.feature_ = some fi) (hlen : fi < st.shapes.length)
    (h : handleDragEvent_ ops st evt = some (st', evs)) :
    (st'.shapes.getD fi ⟨"", []⟩).coords
        = scaleCoords (scalePivot st evt k)
            (scaleFactors st evt (scalePivot st evt k)).1
            (scaleFactors st evt (scalePivot st evt k)).2 st.geom_.coords ∧
    scalePoint (scalePivot st evt k)
        (scaleFactors st evt (scalePivot st evt k)).1
        (scaleFactors st evt (scalePivot st evt k)).2 (scalePivot st evt k)
      = scalePivot st evt k := by
  rw [handleDrag_scale_spec ops st evt k fi hm hk hf] at h
  simp only [Option.some.injEq, Prod.mk.injEq] at h
  obtain ⟨h1, h2⟩ := h
  refine ⟨?_, scalePoint_pivot_fixed _ _ _⟩
  rw [← h1]
  simp only [scaledState, scaledGeometry]
  rw [getD_set_of_lt _ _ _ _ hlen]

/-- Witness for the C3 theorem at a concrete input: the corner gesture on
the square with the modifier held during the drag event. -/
theorem C3_pivot_follows_drag_modifier_witness :
    ((((handleDragEvent_ opsW scaleState
          { coordinate := ⟨20, 20⟩, pixel := ⟨20, 20⟩, metaKey := true }).getD
          (scaleState, [])).1.shapes.getD 0 ⟨"", []⟩).coords
        = scaleCoords
            (scalePivot scaleState
              { coordinate := ⟨20, 20⟩, pixel := ⟨20, 20⟩, metaKey := true } 2)
            (scaleFactors scaleState
              { coordinate := ⟨20, 20⟩, pixel := ⟨20, 20⟩, metaKey := true }
              (scalePivot scaleState
                { coordinate := ⟨20, 20⟩, pixel := ⟨20, 20⟩, metaKey := true } 2)).1
            (scaleFactors scaleState
              { coordinate := ⟨20, 20⟩, pixel := ⟨20, 20⟩, metaKey := true }
              (scalePivot scaleState
                { coordinate := ⟨20, 20⟩, pixel := ⟨20, 20⟩, metaKey := true } 2)).2
            scaleState.geom_.coords) :=
  (C3_pivot_follows_drag_modifier opsW scaleState
    { coordinate := ⟨20, 20⟩, pixel := ⟨20, 20⟩, metaKey := true } 2 0 _ _
    rfl rfl rfl (by decide) rfl).1


/-- C2 (amended): in scale mode, a constraint axis on the grabbed handle
forces the factor of the like-named axis to 1: with constraint h the X
factor is forced to 1 and every X-coordinate of the transformed geometry
is left unchanged (the Y axis is the one that scales). -/
theorem C2_constraint_h_freezes_x (ops : ExternalOps) (st : TransformState)
    (evt : MapBrowserEvent) (k fi : Nat)
    (st' : TransformState) (evs : List DispatchedEvent)
    (hm : st.mode_ = some "scale") (hc : st.constraint_ = some "h")
    (hk : st.opt_ = some k) (hf : st.feature_ = some fi)
    (hlen : fi < st.shapes.length)
    (h : handleDragEvent_ ops st evt = some (st', evs)) :
    (st'.shapes.getD fi ⟨"", []⟩).coords.map Coord.x
        = st.geom_.coords.map Coord.x ∧
    evs.all (fun e => e.scale.map Prod.fst == some 1) = true := by
  rw [handleDrag_scale_spec ops st evt k fi hm hk hf] at h
  simp only [Option.some.injEq, Prod.mk.injEq] at h
  obtain ⟨h1, h2⟩ := h
  have hfst : (scaleFactors st evt (scalePivot st evt k)).1 = 1 := by
    simp [scaleFactors, hc]
  constructor
  · rw [← h1]
    simp only [scaledState, scaledGeometry]
    rw [getD_set_of_lt _ _ _ _ hlen]
    rw [hfst]
    exact scaleCoords_one_x _ _ _
  · rw [← h2]
    simp [hfst]

/-- Witness for the C2 theorem at a concrete input: the constrained
top-edge gesture on the square. -/
theorem C2_constraint_h_freezes_x_witness :
    ((((handleDragEvent_ opsW scaleHState
          { coordinate := ⟨5, 15⟩, pixel := ⟨5, 15⟩ }).getD
          (scaleHState, [])).1.shapes.getD 0 ⟨"", []⟩).coords.map Coord.x
        = scaleHState.geom_.coords.map Coord.x) ∧
    (((handleDragEvent_ opsW scaleHState
          { coordinate := ⟨5, 15⟩, pixel := ⟨5, 15⟩ }).getD
          (scaleHState, [])).2.all (fun e => e.scale.map Prod.fst == some 1)) = true :=
  C2_constraint_h_freezes_x opsW scaleHState
    { coordinate := ⟨5, 15⟩, pixel := ⟨5, 15⟩ } 1 0 _ _
    rfl rfl rfl rfl (by decide) rfl

/-- C5 (amended): for a selected point geometry the rebuilt overlay
contains no stretch, scale or corner handles (at most a rotate handle),
and a center-only redraw produces an empty overlay — the single
rotate-origin marker of a center-only redraw appears only for non-point
shapes. -/
theorem C5_point_gets_no_scale_handles (ops : ExternalOps) (st : TransformState)
    (h : st.ispt_ = true) :
    (drawSketch_ ops st false).all (fun f => f.handle != some "scale") = true ∧
    drawSketch_ ops st true = [] := by
  unfold drawSketch_
  cases hf : st.feature_ with
  | none => simp
  | some fi =>
    constructor
    · by_cases hr : st.rotate <;> simp [h, hr]
    · simp [h]

/-- Witness for the C5 theorem at a concrete input: the selected point. -/
theorem C5_point_gets_no_scale_handles_witness :
    (drawSketch_ opsW ptState false).all (fun f => f.handle != some "scale") = true ∧
    drawSketch_ opsW ptState true = [] :=
  C5_point_gets_no_scale_handles opsW ptState rfl



/-- Characterization of the translate case of the drag handler: the
result is translatedState plus a single translating event carrying the
delta and the event's pixel and coordinate. -/
theorem handleDrag_translate_spec (ops : ExternalOps) (st : TransformState)
    (evt : MapBrowserEvent) (fi : Nat)
    (hm : st.mode_ = some "translate") (hf : st.feature_ = some fi) :
    handleDragEvent_ ops st evt =
      some (translatedState st evt fi,
        [{ type := "translating", feature := some fi,
           delta := some (evt.coordinate.x - st.coordinate_.x,
             evt.coordinate.y - st.coordinate_.y),
           pixel := some evt.pixel, coordinate := some evt.coordinate }]) := by
  unfold handleDragEvent_ translatedState
  rw [hm, hf]
  rw [if_neg (by simp), if_pos rfl]

/-- C8: a translate drag by some delta followed by a translate drag whose
pointer returns to the original gesture coordinate (so the second delta is
the negation of the first) restores the shape store exactly: translation
composes additively relative to the previous pointer position. -/
theorem C8_translate_roundtrip (ops : ExternalOps) (st : TransformState)
    (evt1 evt2 : MapBrowserEvent) (fi : Nat)
    (r1 r2 : TransformState × List DispatchedEvent)
    (hm : st.mode_ = some "translate") (hf : st.feature_ = some fi)
    (hlen : fi < st.shapes.length)
    (hback : evt2.coordinate = st.coordinate_)
    (h1 : handleDragEvent_ ops st evt1 = some r1)
    (h2 : handleDragEvent_ ops r1.1 evt2 = some r2) :
    r2.1.shapes = st.shapes := by
  rw [handleDrag_translate_spec ops st evt1 fi hm hf] at h1
  simp only [Option.some.injEq] at h1
  have hr1 : r1.1 = translatedState st evt1 fi := by rw [← h1]
  have hm1 : r1.1.mode_ = some "translate" := by rw [hr1]; exact hm
  have hf1 : r1.1.feature_ = some fi := by rw [hr1]; exact hf
  rw [handleDrag_translate_spec ops r1.1 evt2 fi hm1 hf1] at h2
  simp only [Option.some.injEq] at h2
  have hr2 : r2.1 = translatedState r1.1 evt2 fi := by rw [← h2]
  rw [hr2, hr1]
  simp only [translatedState, hback]
  rw [List.set_set]
  rw [getD_set_of_lt _ _ _ _ hlen]
  have cancel : ((st.shapes.getD fi ⟨"", []⟩).translateBy
        (evt1.coordinate.x - st.coordinate_.x) (evt1.coordinate.y - st.coordinate_.y)).translateBy
        (st.coordinate_.x - evt1.coordinate.x) (st.coordinate_.y - evt1.coordinate.y)
      = st.shapes.getD fi ⟨"", []⟩ := by
    simp only [Geometry.translateBy]
    rw [translateCoords_cancel _ _ _ _ _ (by ring) (by ring)]
  rw [cancel]
  exact set_getD_self _ _ _ hlen

/-- Witness for the C8 theorem at a concrete input: a translate drag to
(7,8) and back to the gesture start (3,3). -/
theorem C8_translate_roundtrip_witness :
    ((handleDragEvent_ opsW
        ((handleDragEvent_ opsW translateState evtOut).getD (translateState, [])).1
        evtBack).getD (translateState, [])).1.shapes
      = translateState.shapes :=
  C8_translate_roundtrip opsW translateState evtOut evtBack 0 _ _
    rfl rfl (by decide) rfl rfl rfl


/-- C4 (amended): the select event emitted on pointer-down and every
start and in-progress gesture event carry the event's pixel and
coordinate, but the end event emitted on pointer-up carries only the
feature and the pre-gesture geometry — no pixel and no coordinate — and
the select event emitted by the select() method carries only the feature. -/
theorem C4_event_payloads (ops : ExternalOps) (st : TransformState)
    (evt : MapBrowserEvent) (sel : HitResult) (f : Option Nat)
    (dr : TransformState × List DispatchedEvent × Bool)
    (gr : TransformState × List DispatchedEvent)
    (hdown : handleDownEvent_ ops st evt sel = some dr)
    (hdrag : handleDragEvent_ ops st evt = some gr) :
    dr.2.1.all (fun e => e.pixel == some evt.pixel &&
      e.coordinate == some evt.coordinate) = true ∧
    gr.2.all (fun e => e.pixel == some evt.pixel &&
      e.coordinate == some evt.coordinate) = true ∧
    (handleUpEvent_ ops st).2.1.all (fun e => e.pixel == none &&
      e.coordinate == none && e.oldgeom == some st.geom_ &&
      e.feature == st.feature_) = true ∧
    (select ops st f).2.all (fun e => e.pixel == none &&
      e.coordinate == none && e.feature == f) = true := by
  refine ⟨?_, ?_, by simp [handleUpEvent_], by simp [select]⟩
  · unfold handleDownEvent_ at hdown
    (split at hdown) <;> (try dsimp only at hdown) <;> (try split at hdown) <;>
      (try split at hdown)
    all_goals
      first
        | exact Option.noConfusion hdown
        | (simp only [Option.some.injEq] at hdown; subst hdown; simp)
  · unfold handleDragEvent_ at hdrag
    (split at hdrag) <;> (try split at hdrag) <;> (try split at hdrag) <;>
      (try unfold scaleStep at hdrag) <;> (try split at hdrag) <;>
      (try split at hdrag) <;> (try split at hdrag) <;> (try split at hdrag) <;>
      (try split at hdrag)
    all_goals
      first
        | exact Option.noConfusion hdrag
        | (simp only [Option.some.injEq] at hdrag; subst hdrag; simp)

/-- Witness for the C4 theorem at a concrete input: a pointer-down on the
corner handle and a translate drag on the square. -/
theorem C4_event_payloads_witness :
    (((handleDownEvent_ opsW upState evtOut
        ⟨none, some "scale", none, some 2⟩).getD (upState, [], false)).2.1.all
      (fun e => e.pixel == some evtOut.pixel &&
        e.coordinate == some evtOut.coordinate) = true) ∧
    (((handleDragEvent_ opsW upState evtOut).getD (upState, [])).2.all
      (fun e => e.pixel == some evtOut.pixel &&
        e.coordinate == some evtOut.coordinate) = true) ∧
    ((handleUpEvent_ opsW upState).2.1.all (fun e => e.pixel == none &&
      e.coordinate == none && e.oldgeom == some upState.geom_ &&
      e.feature == upState.feature_) = true) ∧
    ((select opsW upState (some 0)).2.all (fun e => e.pixel == none &&
      e.coordinate == none && e.feature == some 0) = true) :=
  C4_event_payloads opsW upState evtOut ⟨none, some "scale", none, some 2⟩
    (some 0) _ _ rfl rfl

end OlTransform
